import Mathlib

/-!
Verification of the weather-monitor program (`src/weather_monitor.cpp`).

The program is a single C++ translation unit: a `WeatherMonitor` class holding
a location label and three `double` readings, a free function
`calculate_average_temperature` averaging the temperatures of a
`vector<WeatherMonitor>&`, and a `main` driver.

Embedding conventions:
* C++ `double` values stored in fields are modelled as exact rationals `ℚ`.
  Every numeric literal appearing in the driver is taken at its exact decimal
  value; all arithmetic the claims inspect (sums of readings, division by a
  positive integer count) is exact.
* The one place where IEEE-754 semantics produce a non-finite value — the
  division `total / monitors.size()` when the vector is empty, which computes
  `0.0 / 0.0 = NaN` — is modelled by the result type `DVal`, whose `nan`
  constructor stands for the NaN produced there; finite results use `fin`.
* C++ member functions receive `this` by reference, and
  `calculate_average_temperature` receives the vector by reference, so each is
  embedded as an explicit state transformer returning the (possibly updated)
  state together with its value or console output.  Bodies are translated
  statement by statement from the source.
* Console output (`cout` lines) is modelled as the strings built from the
  fields; the exact numeral rendering of `operator<<` is immaterial to every
  claim and is rendered via `toString` on `ℚ`.
-/

namespace WeatherApp

/-- Result of a C++ `double` computation: a finite value (exact rational) or
the NaN produced by `0.0 / 0.0`. -/
inductive DVal where
  | fin : ℚ → DVal
  | nan : DVal
deriving DecidableEq

/-- The `WeatherMonitor` class: `string location` plus three `double` fields
(`weather_monitor.cpp`, lines 8–14). -/
structure WeatherMonitor where
  location : String
  temperature : ℚ
  humidity : ℚ
  pressure : ℚ
deriving DecidableEq

/-- The constructor `WeatherMonitor(string loc)` (lines 16–21): stores the
label and zeroes all three readings. -/
def WeatherMonitor.construct (loc : String) : WeatherMonitor :=
  { location := loc, temperature := 0, humidity := 0, pressure := 0 }

/-- `update_weather(double temp, double hum, double pres)` (lines 23–28):
unconditionally overwrites the three readings, then prints a confirmation
line built from the new field values.  Returns the updated object together
with the printed line. -/
def WeatherMonitor.update_weather (m : WeatherMonitor) (temp hum pres : ℚ) :
    WeatherMonitor × String :=
  let m' : WeatherMonitor :=
    { m with temperature := temp, humidity := hum, pressure := pres }
  (m', "Weather updated for " ++ m'.location ++ ": Temp=" ++ toString m'.temperature
        ++ "°C, Humidity=" ++ toString m'.humidity ++ "%, Pressure="
        ++ toString m'.pressure ++ "hPa")

/-- `display_weather()` (lines 30–35): prints four lines from the current
fields; the object is not modified. -/
def WeatherMonitor.display_weather (m : WeatherMonitor) :
    WeatherMonitor × List String :=
  (m, ["Current weather in " ++ m.location ++ ":",
       "Temperature: " ++ toString m.temperature ++ "°C",
       "Humidity: " ++ toString m.humidity ++ "%",
       "Pressure: " ++ toString m.pressure ++ " hPa"])

/-- `get_temperature()` (lines 37–39): `return temperature;` — a non-`const`
member taking `this` by reference, whose body leaves the object unchanged. -/
def WeatherMonitor.get_temperature (m : WeatherMonitor) : WeatherMonitor × ℚ :=
  (m, m.temperature)

/-- The loop of `calculate_average_temperature` (lines 44–47):
`for (auto& monitor : monitors) total += monitor.get_temperature();`
threading each element through `get_temperature` (the reference may mutate it)
and accumulating `total`. -/
def calcLoop : List WeatherMonitor → ℚ → List WeatherMonitor × ℚ
  | [], total => ([], total)
  | monitor :: rest, total =>
      let step := monitor.get_temperature
      let r := calcLoop rest (total + step.2)
      (step.1 :: r.1, r.2)

/-- `calculate_average_temperature(vector<WeatherMonitor>& monitors)`
(lines 43–49): sums the temperatures, then returns `total / monitors.size()`.
When `monitors.size() = 0` the accumulated `total` is `0.0` and the IEEE-754
division `0.0 / 0.0` yields NaN (`DVal.nan`); otherwise the quotient is an
exact finite value.  Returns the (unchanged, see `calcLoop`) vector together
with the result. -/
def calculate_average_temperature (monitors : List WeatherMonitor) :
    List WeatherMonitor × DVal :=
  let r := calcLoop monitors 0
  (r.1,
   if monitors.length = 0 then DVal.nan
   else DVal.fin (r.2 / (monitors.length : ℚ)))

/-- The `main` driver (lines 51–66): constructs "New York" and "London"
stations, updates them with the literal readings, displays both, then
averages the two-element vector.  Returns the computed average. -/
def mainScenario : DVal :=
  let monitor1 := WeatherMonitor.construct ("New York")
  let monitor2 := WeatherMonitor.construct ("London")
  let monitor1 := (monitor1.update_weather 25.5 60.0 1013.2).1
  let monitor2 := (monitor2.update_weather 18.0 75.0 1008.5).1
  let monitor1 := monitor1.display_weather.1
  let monitor2 := monitor2.display_weather.1
  (calculate_average_temperature [monitor1, monitor2]).2

/-- The loop returns the vector unchanged and `total` plus the sum of the
temperatures. -/
theorem calcLoop_spec (ms : List WeatherMonitor) (total : ℚ) :
    calcLoop ms total = (ms, total + (ms.map (fun m => m.temperature)).sum) := by
  induction ms generalizing total with
  | nil => simp [calcLoop]
  | cons m rest ih =>
      simp [calcLoop, WeatherMonitor.get_temperature, ih, add_assoc]

/-- Claim C1: for every non-empty list of stations,
`calculate_average_temperature` returns the arithmetic mean of their
`get_temperature` values — the sum of the temperatures divided by the count. -/
theorem average_is_mean (monitors : List WeatherMonitor) (h : monitors ≠ []) :
    (calculate_average_temperature monitors).2 =
      DVal.fin ((monitors.map (fun m => m.temperature)).sum /
        (monitors.length : ℚ)) := by
  have hlen : monitors.length ≠ 0 := by
    simpa [List.length_eq_zero] using h
  simp [calculate_average_temperature, calcLoop_spec, hlen]

/-- Witness for C1 at a concrete one-element list. -/
theorem average_is_mean_witness :
    (calculate_average_temperature [WeatherMonitor.construct ("A")]).2 =
      DVal.fin (([WeatherMonitor.construct ("A")].map
        (fun m => m.temperature)).sum /
        (([WeatherMonitor.construct ("A")].length : ℚ))) :=
  average_is_mean [WeatherMonitor.construct ("A")] (by decide)

/-- Claim C2, counterexample: on the empty collection the code does not signal
an error — it performs `0.0 / 0.0` and returns NaN. -/
theorem empty_average_returns_nan :
    (calculate_average_temperature []).2 = DVal.nan := rfl

/-- Claim C2, amended: on the empty collection `calculate_average_temperature`
silently performs the division `0.0 / 0` and yields NaN; no error condition is
signaled and the vector is returned unchanged. -/
theorem empty_average_silently_nan :
    calculate_average_temperature [] = ([], DVal.nan) := rfl

/-- Claim C3: immediately after `update_weather t h p`, `get_temperature`
returns exactly `t`, with no transformation. -/
theorem get_after_update (m : WeatherMonitor) (t h p : ℚ) :
    ((m.update_weather t h p).1.get_temperature).2 = t := rfl

/-- Claim C4: a freshly constructed station has temperature, humidity and
pressure all `0.0`, and `get_temperature` returns `0.0` before any update. -/
theorem construct_zeroes (loc : String) :
    (WeatherMonitor.construct loc).temperature = 0 ∧
    (WeatherMonitor.construct loc).humidity = 0 ∧
    (WeatherMonitor.construct loc).pressure = 0 ∧
    ((WeatherMonitor.construct loc).get_temperature).2 = 0 :=
  ⟨rfl, rfl, rfl, rfl⟩

/-- Claim C5: the driver scenario — "New York" updated to
`(25.5, 60.0, 1013.2)`, "London" to `(18.0, 75.0, 1008.5)`, then averaging
the two-element vector — yields exactly `21.75`. -/
theorem main_scenario_average : mainScenario = DVal.fin 21.75 := by
  simp only [mainScenario, WeatherMonitor.construct, WeatherMonitor.update_weather,
    WeatherMonitor.display_weather, WeatherMonitor.get_temperature,
    calculate_average_temperature, calcLoop]
  norm_num

/-- Claim C6: averaging a one-element collection returns exactly that
station's temperature. -/
theorem singleton_average (m : WeatherMonitor) :
    (calculate_average_temperature [m]).2 = DVal.fin m.temperature := by
  simp [calculate_average_temperature, calcLoop, WeatherMonitor.get_temperature]

/-- Claim C7: `update_weather t h p` unconditionally overwrites exactly the
three readings — for every input, with no rejection — and leaves `location`
unchanged: the result is the record with the old location and the new
readings. -/
theorem update_overwrites (m : WeatherMonitor) (t h p : ℚ) :
    (m.update_weather t h p).1 =
      { location := m.location, temperature := t, humidity := h,
        pressure := p } := rfl

/-- Claim C8: `calculate_average_temperature` has no side effect on its input:
the vector (every station's location, temperature, humidity and pressure) is
unchanged by the call. -/
theorem average_no_side_effects (monitors : List WeatherMonitor) :
    (calculate_average_temperature monitors).1 = monitors := by
  simp [calculate_average_temperature, calcLoop_spec]

/-- Claim C9: the location label is immutable after construction: any
sequence of `update_weather` calls applied to a freshly constructed station
leaves `location` equal to the label supplied at construction, and
`update_weather`, `display_weather` and `get_temperature` each preserve the
`location` field of any station. -/
theorem location_immutable (loc : String) (ops : List (ℚ × ℚ × ℚ))
    (m : WeatherMonitor) (t h p : ℚ) :
    (ops.foldl (fun s u => (s.update_weather u.1 u.2.1 u.2.2).1)
        (WeatherMonitor.construct loc)).location = loc ∧
    ((m.update_weather t h p).1).location = m.location ∧
    (m.display_weather.1).location = m.location ∧
    (m.get_temperature.1).location = m.location := by
  refine ⟨?_, rfl, rfl, rfl⟩
  have key : ∀ (us : List (ℚ × ℚ × ℚ)) (s : WeatherMonitor),
      (us.foldl (fun s u => (s.update_weather u.1 u.2.1 u.2.2).1) s).location =
        s.location := by
    intro us
    induction us with
    | nil => intro s; rfl
    | cons u rest ih => intro s; simpa using ih _
  exact key ops _

/-- Claim C10: the average depends only on the temperature fields: two
collections whose stations agree pairwise on temperature (hence have equal
length), whatever their locations, humidities and pressures, get equal
averages. -/
theorem average_depends_only_on_temperatures (xs ys : List WeatherMonitor)
    (h : xs.map (fun m => m.temperature) = ys.map (fun m => m.temperature)) :
    (calculate_average_temperature xs).2 =
      (calculate_average_temperature ys).2 := by
  have hlen : xs.length = ys.length := by
    have := congrArg List.length h
    simpa using this
  simp [calculate_average_temperature, calcLoop_spec, h, hlen]

/-- Witness for C10: two one-station lists differing in location, humidity
and pressure but agreeing on temperature get the same average. -/
theorem average_depends_only_on_temperatures_witness :
    (calculate_average_temperature
        [{ location := "A", temperature := 7, humidity := 1, pressure := 2 }]).2 =
      (calculate_average_temperature
        [{ location := "B", temperature := 7, humidity := 50, pressure := 990 }]).2 :=
  average_depends_only_on_temperatures _ _ (by decide)

end WeatherApp
